import Mathlib

/-!
Verification of the Flocker core against its specification.

This file gives a shallow embedding, in Lean 4, of the parts of the Flocker
code base that the checked claims are about:

* `flocker/node/agents/cinder.py` — the Cinder block-device driver
  (`CinderBlockDeviceAPI`, `wait_for_volume`, `_is_cluster_volume`,
  `_blockdevicevolume_from_cinder_volume`);
* `flocker/filesystems/zfs.py` — the ZFS command wrapper and snapshot listing
  (`_AccumulatingProtocol.connectionLost`, `zfsCommand`, `ZFSSnapshots.list`);
* `flocker/control/_protocol.py` — the control-service AMP protocol
  (`SerializableArgument`, `ControlAMPService`);
* `flocker/acceptance/testtools.py` — the REST client helpers
  (`check_and_decode_json`, `Cluster.create_dataset`, `Cluster.delete_dataset`).

Python exceptions are embedded as `Except` values; the asynchronous backends
(Cinder, Nova, the zfs child process, AMP connections) are embedded as
explicit environment parameters (current enumerations, poll traces, process
termination reasons).  UUID values are represented abstractly by `Nat`, and
Python's `uuid.UUID(string)` constructor — which either returns a UUID or
raises `ValueError` — is an explicit `String → Option Nat` parameter.

The file is laid out as definitions first, then the theorems settling the
claims (with their helper lemmas and witnesses).
-/

/-! # Definitions

## Cinder data model

`cinderclient` / `novaclient` volume objects, as used by
`flocker/node/agents/cinder.py`.  A volume carries an `id`, a `status`
string, a `size` in GiB, a `metadata` mapping and a list of attachments
(each attachment a dict with `server_id` and `device`). -/

/-- One entry of a Cinder/Nova volume's `attachments` list. -/
structure VolAttachment where
  server_id : String
  device : String
deriving DecidableEq, Repr

/-- A Cinder (or Nova) `Volume` object as seen through the
`ICinderVolumeManager` / `INovaVolumeManager` interfaces. `size` is in GiB,
per the note on `ICinderVolumeManager.create`. -/
structure OSVolume where
  id : String
  status : String
  size : Nat
  metadata : List (String × String)
  attachments : List VolAttachment
deriving DecidableEq, Repr

/-- `BlockDeviceVolume`: `blockdevice_id`, `size` (bytes), `attached_to`
(nullable instance id), `dataset_id` (a UUID, represented by `Nat`). -/
structure BlockDeviceVolume where
  blockdevice_id : String
  size : Nat
  attached_to : Option String
  dataset_id : Nat
deriving DecidableEq, Repr

/-- The key name used for identifying the Flocker cluster_id in the metadata
for a volume (`CLUSTER_ID_LABEL` in `cinder.py`). -/
def CLUSTER_ID_LABEL : String := "flocker-cluster-id"

/-- The key name used for identifying the Flocker dataset_id in the metadata
for a volume (`DATASET_ID_LABEL` in `cinder.py`). -/
def DATASET_ID_LABEL : String := "flocker-dataset-id"

/-- Errors raised by the embedded driver code.  `valueError` / `keyError`
stand for the corresponding Python exceptions escaping from
`_blockdevicevolume_from_cinder_volume` or `_is_cluster_volume`. -/
inductive DriverError where
  | unknownVolume
  | alreadyAttachedVolume
  | unattachedVolume
  | valueError
  | keyError
deriving DecidableEq, Repr

/-- `_is_cluster_volume(cluster_id, cinder_volume)` from `cinder.py`:
look up `CLUSTER_ID_LABEL` in the volume's metadata; if present, parse it as
a UUID (Python `UUID(...)`, which raises `ValueError` on a malformed string,
embedded as the `parseUUID` parameter returning `none`) and compare with
`cluster_id`.  Absent tag, or a different id, yields `false`. -/
def _is_cluster_volume (parseUUID : String → Option Nat) (cluster_id : Nat)
    (cinder_volume : OSVolume) : Except DriverError Bool :=
  match cinder_volume.metadata.lookup CLUSTER_ID_LABEL with
  | none => .ok false
  | some s =>
    match parseUUID s with
    | none => .error .valueError
    | some actual_cluster_id => .ok (actual_cluster_id = cluster_id : Bool)

/-- `_blockdevicevolume_from_cinder_volume(cinder_volume)` from `cinder.py`:
derive `attached_to` from the (at most one) attachment — two or more
attachments make the unpacking `[attachment_info] = ...` raise `ValueError`;
read the dataset id from metadata (`KeyError` when absent, `ValueError` when
unparsable); convert the GiB size to bytes. -/
def _blockdevicevolume_from_cinder_volume (parseUUID : String → Option Nat)
    (cinder_volume : OSVolume) : Except DriverError BlockDeviceVolume := do
  let server_id ← match cinder_volume.attachments with
    | [] => Except.ok none
    | [attachment_info] => Except.ok (some attachment_info.server_id)
    | _ => Except.error DriverError.valueError
  let dataset_str ← match cinder_volume.metadata.lookup DATASET_ID_LABEL with
    | some s => Except.ok s
    | none => Except.error DriverError.keyError
  let dataset_id ← match parseUUID dataset_str with
    | some u => Except.ok u
    | none => Except.error DriverError.valueError
  return { blockdevice_id := cinder_volume.id
           size := cinder_volume.size * 2 ^ 30
           attached_to := server_id
           dataset_id := dataset_id }

/-- `CinderBlockDeviceAPI.list_volumes`: iterate over the Cinder enumeration,
keep the volumes for which `_is_cluster_volume` holds, converting each kept
volume with `_blockdevicevolume_from_cinder_volume`.  Any exception escaping
either helper aborts the whole listing. -/
def list_volumes (parseUUID : String → Option Nat) (cluster_id : Nat) :
    List OSVolume → Except DriverError (List BlockDeviceVolume)
  | [] => .ok []
  | cinder_volume :: rest => do
    let keep ← _is_cluster_volume parseUUID cluster_id cinder_volume
    if keep then
      let flocker_volume ←
        _blockdevicevolume_from_cinder_volume parseUUID cinder_volume
      let others ← list_volumes parseUUID cluster_id rest
      return flocker_volume :: others
    else
      list_volumes parseUUID cluster_id rest

/-! ## Waiting discipline (`wait_for_volume`, `destroy_volume`)

`wait_for_volume` polls `volume_manager.list()` in a loop: each iteration
scans the enumeration for a volume with the expected id carrying the
expected status and returns it when found;  otherwise, if the elapsed time
is still below `time_limit` it sleeps 0.1 s and retries, else it raises an
exception built from the expected volume, the expected status, the elapsed
time and the time limit.  The embedding drives the loop on an explicit poll
trace `obs : Nat → List OSVolume` (the enumeration returned by the i-th
poll) and measures time in deciseconds: poll `i` happens at `i` deciseconds,
reflecting the fixed `time.sleep(0.1)` between polls. -/

/-- The interval between successive polls of `wait_for_volume`
(`time.sleep(0.1)`), in milliseconds. -/
def WAIT_POLL_INTERVAL_MS : Nat := 100

/-- The default `time_limit` of `wait_for_volume`, in seconds. -/
def DEFAULT_TIME_LIMIT : Nat := 60

/-- The exception raised by `wait_for_volume` on timeout: it is formatted
from exactly the expected volume, the expected status, the elapsed time and
the time limit (both times here in deciseconds). -/
structure WaitTimeout where
  expected_volume : OSVolume
  expected_status : String
  elapsed_ds : Nat
  time_limit_ds : Nat
deriving DecidableEq, Repr

/-- One scan of a listed enumeration: the first volume whose `id` matches
the expected volume's and whose `status` is the expected status
(the inner `for`/`if` of `wait_for_volume`). -/
def findExpected (listed : List OSVolume) (eid status : String) :
    Option OSVolume :=
  listed.find? (fun v => v.id = eid ∧ v.status = status : OSVolume → Bool)

/-- The polling loop of `wait_for_volume`: at poll `i` (elapsed `i`
deciseconds) scan `obs i`; on a hit return it; otherwise retry while the
elapsed time is below the limit (`remaining` counts the polls left before
the deadline, so `i + remaining = time_limit_ds` throughout), and raise
`WaitTimeout` once it is not. -/
def waitGo (obs : Nat → List OSVolume) (expected : OSVolume)
    (expected_status : String) (time_limit_ds : Nat) :
    Nat → Nat → Except WaitTimeout OSVolume
  | i, 0 =>
    match findExpected (obs i) expected.id expected_status with
    | some v => .ok v
    | none => .error ⟨expected, expected_status, i, time_limit_ds⟩
  | i, remaining + 1 =>
    match findExpected (obs i) expected.id expected_status with
    | some v => .ok v
    | none => waitGo obs expected expected_status time_limit_ds (i + 1) remaining

/-- `wait_for_volume(volume_manager, expected_volume, expected_status,
time_limit)`: run the polling loop from time zero.  `time_limit` is in
seconds and converts to deciseconds at one poll per 100 ms. -/
def wait_for_volume (obs : Nat → List OSVolume) (expected : OSVolume)
    (expected_status : String) (time_limit : Nat := DEFAULT_TIME_LIMIT) :
    Except WaitTimeout OSVolume :=
  waitGo obs expected expected_status (10 * time_limit) 0 (10 * time_limit)

/-- The deletion-confirmation loop of `destroy_volume`: repeatedly call
`cinder_volume_manager.get(blockdevice_id)` and break on the first
`CinderNotFound`.  `getFound i` tells whether the i-th `get` still finds the
volume.  The loop has no sleep and no deadline (`while True`); `fuel` is an
artifact of the embedding only — `none` means the loop is still running
after `fuel` iterations. -/
def destroyGo (getFound : Nat → Bool) : Nat → Nat → Option Unit
  | _, 0 => none
  | i, fuel + 1 => if getFound i then destroyGo getFound (i + 1) fuel else some ()

/-- `CinderBlockDeviceAPI.destroy_volume`: issue the Cinder delete
(`UnknownVolume` if the backend reports `CinderNotFound`), then poll `get`
in an unbounded tight loop until it raises `CinderNotFound`. -/
def destroy_volume (deleteFound : Bool) (getFound : Nat → Bool) (fuel : Nat) :
    Option (Except DriverError Unit) :=
  if deleteFound then (destroyGo getFound 0 fuel).map (fun _ => .ok ())
  else some (.error .unknownVolume)

/-! ## Driver operations (`create_volume`, `attach_volume`, `detach_volume`)

These compose `list_volumes` and `wait_for_volume` with the backend
environment.  The error type distinguishes the driver's documented
exceptions from the `wait_for_volume` timeout. -/

/-- An error escaping a driver operation: a documented driver exception, or
the exception raised by `wait_for_volume` on deadline expiry. -/
inductive OpError where
  | driver (e : DriverError)
  | timeout (t : WaitTimeout)
deriving DecidableEq, Repr

/-- `CinderBlockDeviceAPI.create_volume`: ask Cinder to create a volume
(metadata tagging and the byte→GiB size conversion are folded into the
backend's reply `requested_volume`), wait — with the default status
`available` and the default time limit — until the enumeration lists it,
and convert the listed volume. -/
def create_volume (parseUUID : String → Option Nat)
    (obs : Nat → List OSVolume) (requested_volume : OSVolume) :
    Except OpError BlockDeviceVolume := do
  let created_volume ←
    (wait_for_volume obs requested_volume "available").mapError .timeout
  (_blockdevicevolume_from_cinder_volume parseUUID created_volume).mapError
    .driver

/-- Modelled from the spec: `get_blockdevice_volume(api, blockdevice_id)`
lives in `flocker/node/agents/blockdevice.py`, which is not part of the
sources at hand.  Per the spec of `attach_volume` ("fails with
`UnknownVolume` if absent"), it finds the volume with the given id among
`api.list_volumes()` and fails with `UnknownVolume` when there is none. -/
def get_blockdevice_volume (vols : List BlockDeviceVolume)
    (blockdevice_id : String) : Except DriverError BlockDeviceVolume :=
  match vols.find? (fun v => v.blockdevice_id = blockdevice_id :
      BlockDeviceVolume → Bool) with
  | some v => .ok v
  | none => .error .unknownVolume

/-- `CinderBlockDeviceAPI.attach_volume(blockdevice_id, attach_to)`: look the
volume up via `get_blockdevice_volume` (over `list_volumes` of the current
Cinder enumeration `cinderList`); fail with `AlreadyAttachedVolume` when its
`attached_to` is set; otherwise ask Nova to attach (the backend's reply is
`nova_volume`), wait until the Cinder enumeration reports status `in-use`
(default time limit), and return the looked-up volume with `attached_to`
set to `attach_to`. -/
def attach_volume (parseUUID : String → Option Nat) (cluster_id : Nat)
    (cinderList : List OSVolume) (nova_volume : OSVolume)
    (obs : Nat → List OSVolume) (blockdevice_id attach_to : String) :
    Except OpError BlockDeviceVolume := do
  let vols ← (list_volumes parseUUID cluster_id cinderList).mapError .driver
  let unattached_volume ←
    (get_blockdevice_volume vols blockdevice_id).mapError .driver
  if unattached_volume.attached_to.isSome then
    Except.error (.driver .alreadyAttachedVolume)
  else do
    let _ ← (wait_for_volume obs nova_volume "in-use").mapError OpError.timeout
    return { unattached_volume with attached_to := some attach_to }

/-- `nova_volume_manager.get(volume_id)`: retrieve a volume by id;
`NovaNotFound` (here `none`) when no volume with that id exists. -/
def nova_get (novaVolumes : List OSVolume) (blockdevice_id : String) :
    Option OSVolume :=
  novaVolumes.find? (fun v => v.id = blockdevice_id : OSVolume → Bool)

/-- Modelled from the spec: `nova_volume_manager.delete_server_volume(
server_id, attachment_id)` is the external Nova API ("Detach the volume
identified by the volume ID from the given server ID", per the
`INovaVolumeManager` interface).  It succeeds when the volume is currently
attached to the given server and raises `NovaNotFound` (here `none`)
otherwise — in particular when the volume is unattached or attached to a
different server. -/
def delete_server_volume (novaVolumes : List OSVolume)
    (server_id blockdevice_id : String) : Option Unit :=
  match nova_get novaVolumes blockdevice_id with
  | some v =>
    if v.attachments.any (fun a => a.server_id = server_id :
        VolAttachment → Bool) then some () else none
  | none => none

/-- `CinderBlockDeviceAPI.detach_volume(blockdevice_id)`: get the volume from
Nova (`UnknownVolume` on `NovaNotFound`); call `delete_server_volume` with
this host's instance id (`UnattachedVolume` on `NovaNotFound`); then wait —
on the Nova enumeration `obs` — until the volume's status is `available`
(default time limit). -/
def detach_volume (our_id : String) (novaVolumes : List OSVolume)
    (obs : Nat → List OSVolume) (blockdevice_id : String) :
    Except OpError Unit :=
  match nova_get novaVolumes blockdevice_id with
  | none => .error (.driver .unknownVolume)
  | some nova_volume =>
    match delete_server_volume novaVolumes our_id blockdevice_id with
    | none => .error (.driver .unattachedVolume)
    | some _ => do
      let _ ←
        (wait_for_volume obs nova_volume "available").mapError OpError.timeout
      return ()

/-! ## ZFS command wrapper (`flocker/filesystems/zfs.py`)

`zfsCommand` runs the `zfs` child process under an
`_AccumulatingProtocol`; the protocol concatenates every received chunk and,
on `connectionLost`, resolves according to the termination reason. -/

/-- The reason handed to `_AccumulatingProtocol.connectionLost`: a clean
`ConnectionDone` (the process exited with code 0), a `ProcessTerminated`
with an exit code (`none` when the process was killed by a signal), or any
other failure (represented abstractly by a number). -/
inductive ProcessEnd where
  | connectionDone
  | processTerminated (exitCode : Option Int)
  | otherFailure (reason : Nat)
deriving DecidableEq, Repr

/-- How the `Deferred` of `zfsCommand` resolves: the accumulated bytes, a
`CommandFailed`, a `BadArguments`, or the underlying failure propagated
unchanged. -/
inductive ZfsResult (α : Type) where
  | ok (data : α)
  | commandFailed
  | badArguments
  | failure (reason : ProcessEnd)
deriving DecidableEq, Repr

/-- `_AccumulatingProtocol.dataReceived` over a whole run: `self._data` is
the concatenation of all received chunks. -/
def accumulate (chunks : List (List Char)) : List Char :=
  chunks.foldl (fun acc c => acc ++ c) []

/-- `_AccumulatingProtocol.connectionLost(reason)`: `ConnectionDone`
callbacks with the accumulated data; `ProcessTerminated` with exit code 1
errbacks `CommandFailed`, with exit code 2 errbacks `BadArguments`; any
other reason errbacks the reason itself. -/
def connectionLost {α : Type} (data : α) : ProcessEnd → ZfsResult α
  | .connectionDone => .ok data
  | .processTerminated exitCode =>
    if exitCode = some 1 then .commandFailed
    else if exitCode = some 2 then .badArguments
    else .failure (.processTerminated exitCode)
  | .otherFailure r => .failure (.otherFailure r)

/-- Twisted's mapping from the `zfs` child's exit status to the reason that
reaches `connectionLost`: exit code 0 ends the connection cleanly
(`ConnectionDone`); a non-zero exit code arrives as `ProcessTerminated` with
that code. -/
def reasonOfExit (code : Nat) : ProcessEnd :=
  if code = 0 then .connectionDone else .processTerminated (some (code : Int))

/-- `zfsCommand(reactor, arguments)`: the result of the command is the
protocol's deferred — `connectionLost` applied to the accumulated output
chunks and the process termination reason (endpoint plumbing abstracted). -/
def zfsCommandResult (chunks : List (List Char)) (reason : ProcessEnd) :
    ZfsResult (List Char) :=
  connectionLost (accumulate chunks) reason

/-! ## ZFS snapshot listing (`ZFSSnapshots.list`)

`list` runs `zfs list -H -r -t snapshot -o name -s name <pool>` and parses
the output: each line is split on the first `@` into a pool component and an
encoded snapshot name; lines of other pools are skipped; names that fail to
decode (`SnapshotName.fromBytes` raising `ValueError`) are skipped; a line
without `@` makes the tuple unpacking itself raise `ValueError`, which is
not caught.  `SnapshotName.fromBytes` lives in `flocker/snapshots.py`
(not among the sources at hand), so the naming scheme is an explicit
decoder parameter `List Char → Option α`. -/

/-- Python `bytes.splitlines()`: split on `\n`, `\r` and `\r\n`, with no
trailing empty line. -/
def splitlinesGo (acc : List Char) : List Char → List (List Char)
  | [] => if acc.isEmpty then [] else [acc.reverse]
  | '\r' :: '\n' :: rest => acc.reverse :: splitlinesGo [] rest
  | '\r' :: rest => acc.reverse :: splitlinesGo [] rest
  | '\n' :: rest => acc.reverse :: splitlinesGo [] rest
  | c :: rest => splitlinesGo (c :: acc) rest

/-- Python `bytes.splitlines()` from the start of the data. -/
def splitlines (data : List Char) : List (List Char) :=
  splitlinesGo [] data

/-- Python `line.split(sep, 1)` when `sep` occurs in `line`: the part before
the first `sep` and the part after it; `none` when `sep` does not occur
(in which case the two-name unpacking in `parseSnapshots` raises
`ValueError`). -/
def splitFirst (sep : Char) : List Char → Option (List Char × List Char)
  | [] => none
  | c :: rest =>
    if c = sep then some ([], rest)
    else (splitFirst sep rest).map (fun p => (c :: p.1, p.2))

/-- The uncaught `ValueError` raised by `parseSnapshots` when a line of the
enumeration contains no `@`. -/
inductive ZfsParseError where
  | valueError
deriving DecidableEq, Repr

/-- `parseSnapshots(data)`, the callback inside `ZFSSnapshots.list`: for
each line of `data.splitlines()`, split on the first `@`; when the pool
component equals this filesystem's pool, decode the name — appending it on
success and silently skipping it when decoding raises `ValueError`
(decoder returns `none`); other pools' lines are skipped; a line without
`@` raises `ValueError`, failing the whole operation. -/
def parseSnapshots {α : Type} (fromBytes : List Char → Option α)
    (pool : List Char) : List (List Char) → Except ZfsParseError (List α)
  | [] => .ok []
  | line :: rest =>
    match splitFirst '@' line with
    | none => .error .valueError
    | some (linePool, encodedName) =>
      if linePool = pool then
        match fromBytes encodedName with
        | some name => (parseSnapshots fromBytes pool rest).map (name :: ·)
        | none => parseSnapshots fromBytes pool rest
      else
        parseSnapshots fromBytes pool rest

/-- `ZFSSnapshots.list` on the bytes produced by the zfs enumeration:
`parseSnapshots` applied to the split lines. -/
def zfs_snapshots_list {α : Type} (fromBytes : List Char → Option α)
    (pool : List Char) (data : List Char) : Except ZfsParseError (List α) :=
  parseSnapshots fromBytes pool (splitlines data)

/-! ## Control service broadcast (`ControlAMPService`)

The service holds the set of live agent connections, reads the current
configuration from the configuration service and the current state from the
cluster-state service, and pushes `ClusterStatus` to agents.  The embedding
records, for each handled event, the resulting service data and the list of
attempted sends; whether an individual send later fails is an environment
function `fails`, recorded next to each attempted message — the errback
`lambda _: None` drops the failure. -/

/-- A `ClusterStatus` send attempted to one connection: the target and the
`configuration` / `state` payload of the command. -/
structure ClusterStatusMsg (Conn Config St : Type) where
  conn : Conn
  configuration : Config
  state : St
deriving DecidableEq, Repr

/-- The data held by `ControlAMPService`: the set of live connections
(embedded as a list), and the current values behind
`configuration_service.get()` and `cluster_state.as_deployment()`. -/
structure ControlAMPService (Conn Config St : Type) where
  connections : List Conn
  configuration : Config
  cluster_state : St
deriving DecidableEq, Repr

/-- `ControlAMPService._send_state_to_connections(connections)`: read the
configuration and state once, then `callRemote(ClusterStatusCommand, ...)`
to every given connection with that same snapshot; each send's eventual
failure (`fails c`) is recorded and dropped (`addErrback(lambda _: None)`),
stopping neither the loop nor the service. -/
def send_state_to_connections {Conn Config St : Type} (fails : Conn → Bool)
    (connections : List Conn) (configuration : Config) (state : St) :
    List (ClusterStatusMsg Conn Config St × Bool) :=
  connections.map (fun c => (⟨c, configuration, state⟩, fails c))

/-- The configuration-change callback registered with
`configuration_service.register`: by the time it runs the configuration
service holds the new configuration; the callback sends the state to all
connections. -/
def config_changed {Conn Config St : Type} (fails : Conn → Bool)
    (s : ControlAMPService Conn Config St) (newConfig : Config) :
    ControlAMPService Conn Config St ×
      List (ClusterStatusMsg Conn Config St × Bool) :=
  let s2 := { s with configuration := newConfig }
  (s2, send_state_to_connections fails s2.connections s2.configuration
    s2.cluster_state)

/-- `ControlAMPService.node_changed(state_changes)`: fold the changes into
the cluster state (`cluster_state.apply_changes`, an abstract parameter
here), then send the state to all connections. -/
def node_changed {Conn Config St Change : Type}
    (apply_changes : St → List Change → St) (fails : Conn → Bool)
    (s : ControlAMPService Conn Config St) (state_changes : List Change) :
    ControlAMPService Conn Config St ×
      List (ClusterStatusMsg Conn Config St × Bool) :=
  let s2 := { s with cluster_state := apply_changes s.cluster_state state_changes }
  (s2, send_state_to_connections fails s2.connections s2.configuration
    s2.cluster_state)

/-- `ControlAMPService.connected(connection)`: add the new connection to the
set, then send the state to that connection only. -/
def control_connected {Conn Config St : Type} (fails : Conn → Bool)
    (s : ControlAMPService Conn Config St) (connection : Conn) :
    ControlAMPService Conn Config St ×
      List (ClusterStatusMsg Conn Config St × Bool) :=
  let s2 := { s with connections := s.connections ++ [connection] }
  (s2, send_state_to_connections fails [connection] s2.configuration
    s2.cluster_state)

/-! ## REST client expectations (`flocker/acceptance/testtools.py`) -/

/-- `twisted.web.http.OK`. -/
def OK : Nat := 200

/-- `twisted.web.http.CREATED`. -/
def CREATED : Nat := 201

/-- `check_and_decode_json(result, response_code)`: when the response code
differs from the expected one, raise `ResponseError(result.code, body)`;
otherwise decode the JSON body (decoding abstracted: the body value is
returned as is). -/
def check_and_decode_json {β : Type} (code : Nat) (body : β)
    (response_code : Nat) : Except (Nat × β) β :=
  if code ≠ response_code then .error (code, body) else .ok body

/-- The response handling of `Cluster.create_dataset`: a POST to
`/configuration/datasets` is checked against `CREATED`. -/
def create_dataset_check {β : Type} (code : Nat) (body : β) :
    Except (Nat × β) β :=
  check_and_decode_json code body CREATED

/-- The response handling of `Cluster.delete_dataset`: a DELETE of
`/configuration/datasets/{id}` is checked against `OK`. -/
def delete_dataset_check {β : Type} (code : Nat) (body : β) :
    Except (Nat × β) β :=
  check_and_decode_json code body OK

/-! ## AMP serializable arguments (`SerializableArgument`)

`wire_encode` / `wire_decode` live in `flocker/control/_persistence.py`
(not among the sources at hand) and are abstracted as functions; what the
claims concern is the `isinstance` guard of `SerializableArgument` against
its `_expected_classes`.  Python classes are embedded as tags. -/

/-- The class of a wire-codec value: the model classes named in
`_protocol.py` plus arbitrary other classes. -/
inductive WireClass where
  | deployment
  | nodeState
  | deploymentState
  | nonManifestDatasets
  | other (n : Nat)
deriving DecidableEq, Repr

/-- A value handled by the wire codec: its Python class and an abstract
payload. -/
structure WireObject where
  cls : WireClass
  payload : Nat
deriving DecidableEq, Repr

/-- The `TypeError` raised by `SerializableArgument` on a class mismatch. -/
inductive AMPArgError where
  | typeError
deriving DecidableEq, Repr

/-- `SerializableArgument.fromString(in_bytes)`: decode the payload with
`wire_decode`; if the result is not an instance of one of the expected
classes, raise `TypeError`; otherwise deliver the object. -/
def SerializableArgument_fromString (expected_classes : List WireClass)
    (wire_decode : String → WireObject) (in_bytes : String) :
    Except AMPArgError WireObject :=
  let obj := wire_decode in_bytes
  if obj.cls ∈ expected_classes then .ok obj else .error .typeError

/-- `SerializableArgument.toString(obj)`: if the object is not an instance
of one of the expected classes, raise `TypeError`; otherwise encode it with
`wire_encode`. -/
def SerializableArgument_toString (expected_classes : List WireClass)
    (wire_encode : WireObject → String) (obj : WireObject) :
    Except AMPArgError String :=
  if obj.cls ∈ expected_classes then .ok (wire_encode obj)
  else .error .typeError

/-- The expected classes of `ClusterStatusCommand`'s `configuration`
argument: `SerializableArgument(Deployment)`. -/
def clusterStatus_configuration_classes : List WireClass := [.deployment]

/-- The expected classes of `ClusterStatusCommand`'s `state` argument:
`SerializableArgument(DeploymentState)`. -/
def clusterStatus_state_classes : List WireClass := [.deploymentState]

/-- The expected classes of `NodeStateCommand`'s `state_changes` list
elements: `SerializableArgument(NodeState, NonManifestDatasets)`. -/
def nodeState_changes_classes : List WireClass :=
  [.nodeState, .nonManifestDatasets]

/-! ## Concrete inputs used by witnesses and counterexamples -/

/-- A concrete UUID parser for witnesses: recognises two UUID strings. -/
def exampleParseUUID : String → Option Nat := fun s =>
  if s = "cid-1" then some 1 else if s = "did-2" then some 2 else none

/-- A concrete backend volume tagged for cluster 1, dataset 2. -/
def exampleCinderVolume : OSVolume :=
  { id := "vol-1", status := "available", size := 4
    metadata := [(CLUSTER_ID_LABEL, "cid-1"), (DATASET_ID_LABEL, "did-2")]
    attachments := [] }

/-- The `BlockDeviceVolume` that `exampleCinderVolume` converts to. -/
def exampleBDV : BlockDeviceVolume :=
  { blockdevice_id := "vol-1", size := 4 * 2 ^ 30
    attached_to := none, dataset_id := 2 }

/-- A volume whose creation was requested but which never becomes
`available`. -/
def exampleWaitVolume : OSVolume :=
  { id := "vol-1", status := "creating", size := 4
    metadata := [], attachments := [] }

/-- A poll trace on which the volume is forever listed as `creating`. -/
def exampleObsStuck : Nat → List OSVolume := fun _ => [exampleWaitVolume]

/-- A poll trace on which the enumeration is forever empty. -/
def exampleObsEmpty : Nat → List OSVolume := fun _ => []

/-- A poll trace on which the volume is `in-use` from the first poll. -/
def exampleObsInUse : Nat → List OSVolume := fun _ =>
  [{ exampleWaitVolume with status := "in-use" }]

/-- A poll trace on which the volume is `available` from the first poll. -/
def exampleObsAvailable : Nat → List OSVolume := fun _ =>
  [{ exampleWaitVolume with status := "available" }]

/-- A `get` trace for `destroy_volume` whose volume disappears at the
fourth poll. -/
def exampleGetTrace : Nat → Bool := fun i => i < 3

/-- A Nova volume attached to the instance `other-server`. -/
def exampleNovaAttachedElsewhere : OSVolume :=
  { id := "vol-1", status := "in-use", size := 4, metadata := []
    attachments := [{ server_id := "other-server", device := "/dev/vdb" }] }

/-- A Nova volume attached to the instance `this-server`. -/
def exampleNovaAttachedHere : OSVolume :=
  { id := "vol-1", status := "in-use", size := 4, metadata := []
    attachments := [{ server_id := "this-server", device := "/dev/vdb" }] }

/-- A concrete snapshot-name decoder: every name decodes except `bad`. -/
def exampleDecoder : List Char → Option (List Char) := fun name =>
  if name = ['b', 'a', 'd'] then none else some name

/-- Concrete zfs enumeration output: two snapshots of `hpool` (one with an
undecodable name) and one decodable snapshot of another pool. -/
def exampleZfsOutput : List Char :=
  "hpool@good\nhpool@bad\notherpool@alien".data

/-- A concrete wire decoder: every payload decodes to a `NodeState`
instance. -/
def exampleWireDecode : String → WireObject := fun _ =>
  { cls := .nodeState, payload := 7 }

/-- A concrete wire encoder. -/
def exampleWireEncode : WireObject → String := fun _ => "encoded"

/-! # Theorems

## C1 — tenant isolation of `list_volumes` -/

/-- Helper: every volume in a successful `list_volumes` result is the
conversion of some listed Cinder volume that passed `_is_cluster_volume`. -/
lemma list_volumes_mem_source (parseUUID : String → Option Nat)
    (cluster_id : Nat) (backend : List OSVolume)
    (vols : List BlockDeviceVolume) (v : BlockDeviceVolume)
    (hok : list_volumes parseUUID cluster_id backend = .ok vols)
    (hv : v ∈ vols) :
    ∃ cv ∈ backend,
      _is_cluster_volume parseUUID cluster_id cv = .ok true ∧
      _blockdevicevolume_from_cinder_volume parseUUID cv = .ok v := by
  induction backend generalizing vols with
  | nil =>
    simp only [list_volumes, Except.ok.injEq] at hok
    subst hok
    simp at hv
  | cons cv rest ih =>
    simp only [list_volumes, bind, Except.bind] at hok
    cases hcl : _is_cluster_volume parseUUID cluster_id cv with
    | error e => simp [hcl] at hok
    | ok keep =>
      simp only [hcl] at hok
      cases keep with
      | false =>
        simp only [Bool.false_eq_true, if_false] at hok
        obtain ⟨cv', hmem, h1, h2⟩ := ih vols hok hv
        exact ⟨cv', List.mem_cons_of_mem _ hmem, h1, h2⟩
      | true =>
        simp only [if_true] at hok
        cases hconv : _blockdevicevolume_from_cinder_volume parseUUID cv with
        | error e => simp [hconv] at hok
        | ok fv =>
          simp only [hconv] at hok
          cases hrest : list_volumes parseUUID cluster_id rest with
          | error e => simp [hrest] at hok
          | ok others =>
            simp only [hrest, pure, Except.pure, Except.ok.injEq] at hok
            subst hok
            rcases List.mem_cons.mp hv with hv | hv
            · exact ⟨cv, List.mem_cons_self _ _, by simpa using hcl,
                by rw [hconv, hv]⟩
            · obtain ⟨cv', hmem, h1, h2⟩ := ih others hrest hv
              exact ⟨cv', List.mem_cons_of_mem _ hmem, h1, h2⟩

/-- Helper: `_is_cluster_volume` returns `.ok true` exactly when the
metadata carries a `CLUSTER_ID_LABEL` entry that parses to this cluster's
id. -/
lemma is_cluster_volume_ok_true (parseUUID : String → Option Nat)
    (cluster_id : Nat) (cv : OSVolume)
    (h : _is_cluster_volume parseUUID cluster_id cv = .ok true) :
    ∃ s, cv.metadata.lookup CLUSTER_ID_LABEL = some s ∧
      parseUUID s = some cluster_id := by
  unfold _is_cluster_volume at h
  cases hm : cv.metadata.lookup CLUSTER_ID_LABEL with
  | none => simp [hm] at h
  | some s =>
    simp only [hm] at h
    cases hp : parseUUID s with
    | none => simp [hp] at h
    | some u =>
      simp only [hp, Except.ok.injEq] at h
      refine ⟨s, rfl, ?_⟩
      rw [hp]
      congr 1
      exact of_decide_eq_true h

/-- C1: every volume returned by `list_volumes` originates from a backend
volume whose metadata carries a `CLUSTER_ID_LABEL` tag parsing to exactly
this driver instance's `cluster_id`; a backend volume lacking the tag, or
carrying a different cluster's id, never contributes to the result. -/
theorem list_volumes_tenant_isolation (parseUUID : String → Option Nat)
    (cluster_id : Nat) (backend : List OSVolume)
    (vols : List BlockDeviceVolume) (v : BlockDeviceVolume)
    (hok : list_volumes parseUUID cluster_id backend = .ok vols)
    (hv : v ∈ vols) :
    ∃ cv ∈ backend,
      _blockdevicevolume_from_cinder_volume parseUUID cv = .ok v ∧
      ∃ s, cv.metadata.lookup CLUSTER_ID_LABEL = some s ∧
        parseUUID s = some cluster_id := by
  obtain ⟨cv, hmem, hcl, hconv⟩ :=
    list_volumes_mem_source parseUUID cluster_id backend vols v hok hv
  obtain ⟨s, hs, hps⟩ := is_cluster_volume_ok_true parseUUID cluster_id cv hcl
  exact ⟨cv, hmem, hconv, s, hs, hps⟩

/-- Witness for C1 at a concrete backend enumeration. -/
theorem list_volumes_tenant_isolation_witness :
    ∃ cv ∈ [exampleCinderVolume],
      _blockdevicevolume_from_cinder_volume exampleParseUUID cv =
        .ok exampleBDV ∧
      ∃ s, cv.metadata.lookup CLUSTER_ID_LABEL = some s ∧
        exampleParseUUID s = some 1 :=
  list_volumes_tenant_isolation exampleParseUUID 1 [exampleCinderVolume]
    [exampleBDV] exampleBDV rfl (List.mem_singleton.mpr rfl)

/-! ## C2 — polling discipline of the mutating operations -/

/-- Helper: if no poll up to the deadline sees the expected status, the
polling loop of `wait_for_volume` raises a timeout whose elapsed time equals
the deadline. -/
lemma waitGo_timeout (obs : Nat → List OSVolume) (e : OSVolume) (st : String)
    (L : Nat) :
    ∀ remaining i,
      (∀ j, i ≤ j → j ≤ i + remaining → findExpected (obs j) e.id st = none) →
      waitGo obs e st L i remaining = .error ⟨e, st, i + remaining, L⟩ := by
  intro remaining
  induction remaining with
  | zero =>
    intro i h
    have hi := h i le_rfl (by omega)
    simp [waitGo, hi]
  | succ r ih =>
    intro i h
    have hi := h i le_rfl (by omega)
    have hrec := ih (i + 1) (fun j hj1 hj2 => h j (by omega) (by omega))
    have harith : i + 1 + r = i + (r + 1) := by omega
    rw [harith] at hrec
    simp [waitGo, hi, hrec]

/-- Helper: a successful `waitGo` run found the expected status at some poll
before the deadline. -/
lemma waitGo_ok (obs : Nat → List OSVolume) (e : OSVolume) (st : String)
    (L : Nat) :
    ∀ remaining i v, waitGo obs e st L i remaining = .ok v →
      ∃ j, i ≤ j ∧ j ≤ i + remaining ∧ findExpected (obs j) e.id st = some v := by
  intro remaining
  induction remaining with
  | zero =>
    intro i v h
    cases hf : findExpected (obs i) e.id st with
    | none => simp [waitGo, hf] at h
    | some w =>
      simp only [waitGo, hf, Except.ok.injEq] at h
      exact ⟨i, le_rfl, by omega, by rw [hf, h]⟩
  | succ r ih =>
    intro i v h
    cases hf : findExpected (obs i) e.id st with
    | none =>
      simp only [waitGo, hf] at h
      obtain ⟨j, hj1, hj2, hj3⟩ := ih (i + 1) v h
      exact ⟨j, by omega, by omega, hj3⟩
    | some w =>
      simp only [waitGo, hf, Except.ok.injEq] at h
      exact ⟨i, le_rfl, by omega, by rw [hf, h]⟩

/-- Helper: any timeout error out of `waitGo` carries the expected volume,
the expected status, an elapsed time equal to the deadline, and the
deadline. -/
lemma waitGo_error (obs : Nat → List OSVolume) (e : OSVolume) (st : String)
    (L : Nat) :
    ∀ remaining i t, waitGo obs e st L i remaining = .error t →
      t = ⟨e, st, i + remaining, L⟩ := by
  intro remaining
  induction remaining with
  | zero =>
    intro i t h
    cases hf : findExpected (obs i) e.id st with
    | none =>
      simp only [waitGo, hf, Except.error.injEq] at h
      simpa using h.symm
    | some w => simp [waitGo, hf] at h
  | succ r ih =>
    intro i t h
    cases hf : findExpected (obs i) e.id st with
    | none =>
      simp only [waitGo, hf] at h
      have := ih (i + 1) t h
      rw [this]
      congr 1
      omega
    | some w => simp [waitGo, hf] at h

/-- Helper: any timeout error out of `wait_for_volume` is built from the
expected volume, the expected status, and an elapsed time equal to the
(decisecond) deadline — the last-observed enumeration is not part of it. -/
lemma wait_for_volume_error (obs : Nat → List OSVolume) (e : OSVolume)
    (st : String) (L : Nat) (t : WaitTimeout)
    (h : wait_for_volume obs e st L = .error t) :
    t = ⟨e, st, 10 * L, 10 * L⟩ := by
  have := waitGo_error obs e st (10 * L) (10 * L) 0 t h
  simpa using this

/-- Helper: `wait_for_volume` times out when no poll within the deadline
sees the expected status. -/
lemma wait_for_volume_timeout (obs : Nat → List OSVolume) (e : OSVolume)
    (st : String) (L : Nat)
    (h : ∀ i ≤ 10 * L, findExpected (obs i) e.id st = none) :
    wait_for_volume obs e st L = .error ⟨e, st, 10 * L, 10 * L⟩ := by
  have := waitGo_timeout obs e st (10 * L) (10 * L) 0
    (fun j hj1 hj2 => h j (by omega))
  simpa using this

/-- Helper: `wait_for_volume` succeeds only if some poll within the deadline
saw the expected status. -/
lemma wait_for_volume_ok (obs : Nat → List OSVolume) (e : OSVolume)
    (st : String) (L : Nat) (v : OSVolume)
    (h : wait_for_volume obs e st L = .ok v) :
    ∃ i ≤ 10 * L, findExpected (obs i) e.id st = some v := by
  obtain ⟨j, hj1, hj2, hj3⟩ := waitGo_ok obs e st (10 * L) (10 * L) 0 v h
  exact ⟨j, by omega, hj3⟩

/-- Helper: the `destroy_volume` confirmation loop finishes within `fuel`
iterations exactly when one of the first `fuel` polls of `get` reports the
volume gone. -/
lemma destroyGo_some_iff (g : Nat → Bool) :
    ∀ fuel i, destroyGo g i fuel = some () ↔
      ∃ j, i ≤ j ∧ j < i + fuel ∧ g j = false := by
  intro fuel
  induction fuel with
  | zero =>
    intro i
    simp only [destroyGo]
    constructor
    · intro h; cases h
    · rintro ⟨j, hj1, hj2, _⟩; omega
  | succ f ih =>
    intro i
    cases hgi : g i with
    | true =>
      simp only [destroyGo, hgi, if_true]
      rw [ih (i + 1)]
      constructor
      · rintro ⟨j, hj1, hj2, hj3⟩; exact ⟨j, by omega, by omega, hj3⟩
      · rintro ⟨j, hj1, hj2, hj3⟩
        refine ⟨j, ?_, by omega, hj3⟩
        rcases Nat.eq_or_lt_of_le hj1 with rfl | hlt
        · rw [hgi] at hj3; cases hj3
        · omega
    | false =>
      simp only [destroyGo, hgi, if_false]
      exact ⟨fun _ => ⟨i, le_rfl, by omega, hgi⟩, fun _ => rfl⟩

/-- Helper: while `get` keeps finding the volume, the `destroy_volume`
confirmation loop never gives up: there is no deadline. -/
lemma destroyGo_none_always : ∀ fuel i,
    destroyGo (fun _ => true) i fuel = none := by
  intro fuel
  induction fuel with
  | zero => intro i; rfl
  | succ f ih => intro i; simpa [destroyGo] using ih (i + 1)

/-- Helper: any timeout error out of `create_volume` is the default-deadline
`available` timeout for the requested volume. -/
lemma create_volume_timeout (parseUUID : String → Option Nat)
    (obs : Nat → List OSVolume) (rv : OSVolume) (t : WaitTimeout)
    (h : create_volume parseUUID obs rv = .error (.timeout t)) :
    t = ⟨rv, "available", 10 * DEFAULT_TIME_LIMIT, 10 * DEFAULT_TIME_LIMIT⟩ := by
  unfold create_volume at h
  cases hw : wait_for_volume obs rv "available" DEFAULT_TIME_LIMIT with
  | error tt =>
    simp only [hw, Except.mapError, bind, Except.bind, Except.error.injEq,
      OpError.timeout.injEq] at h
    rw [← h]
    exact wait_for_volume_error obs rv "available" DEFAULT_TIME_LIMIT tt hw
  | ok w =>
    simp only [hw, Except.mapError, bind, Except.bind] at h
    cases hc : _blockdevicevolume_from_cinder_volume parseUUID w with
    | error e => simp [hc, Except.mapError] at h
    | ok b => simp [hc, Except.mapError] at h

/-- Helper: any timeout error out of `attach_volume` is the default-deadline
`in-use` timeout for the volume returned by Nova's attach call. -/
lemma attach_volume_timeout (parseUUID : String → Option Nat)
    (cluster_id : Nat) (cinderList : List OSVolume) (nova_volume : OSVolume)
    (obs : Nat → List OSVolume) (blockdevice_id attach_to : String)
    (t : WaitTimeout)
    (h : attach_volume parseUUID cluster_id cinderList nova_volume obs
      blockdevice_id attach_to = .error (.timeout t)) :
    t = ⟨nova_volume, "in-use", 10 * DEFAULT_TIME_LIMIT,
      10 * DEFAULT_TIME_LIMIT⟩ := by
  unfold attach_volume at h
  cases hl : list_volumes parseUUID cluster_id cinderList with
  | error e => simp [hl, Except.mapError, bind, Except.bind] at h
  | ok vols =>
    simp only [hl, Except.mapError, bind, Except.bind] at h
    cases hg : get_blockdevice_volume vols blockdevice_id with
    | error e => simp [hg, Except.mapError] at h
    | ok u =>
      simp only [hg, Except.mapError] at h
      cases ha : u.attached_to.isSome with
      | true => simp [ha] at h
      | false =>
        simp only [ha, Bool.false_eq_true, if_false] at h
        cases hw : wait_for_volume obs nova_volume "in-use"
            DEFAULT_TIME_LIMIT with
        | error tt =>
          simp only [hw, Except.mapError, bind, Except.bind,
            Except.error.injEq, OpError.timeout.injEq] at h
          rw [← h]
          exact wait_for_volume_error obs nova_volume "in-use"
            DEFAULT_TIME_LIMIT tt hw
        | ok w => simp [hw, Except.mapError, bind, Except.bind, pure,
            Except.pure] at h

/-- Helper: any timeout error out of `detach_volume` is the default-deadline
`available` timeout for the volume that Nova's `get` returned. -/
lemma detach_volume_timeout (our_id : String) (novaVolumes : List OSVolume)
    (obs : Nat → List OSVolume) (blockdevice_id : String) (t : WaitTimeout)
    (h : detach_volume our_id novaVolumes obs blockdevice_id =
      .error (.timeout t)) :
    ∃ nv, nova_get novaVolumes blockdevice_id = some nv ∧
      t = ⟨nv, "available", 10 * DEFAULT_TIME_LIMIT,
        10 * DEFAULT_TIME_LIMIT⟩ := by
  unfold detach_volume at h
  cases hg : nova_get novaVolumes blockdevice_id with
  | none => simp [hg] at h
  | some nv =>
    simp only [hg] at h
    cases hd : delete_server_volume novaVolumes our_id blockdevice_id with
    | none => simp [hd] at h
    | some u =>
      simp only [hd] at h
      cases hw : wait_for_volume obs nv "available" DEFAULT_TIME_LIMIT with
      | error tt =>
        simp only [hw, Except.mapError, bind, Except.bind,
          Except.error.injEq, OpError.timeout.injEq] at h
        refine ⟨nv, rfl, ?_⟩
        rw [← h]
        exact wait_for_volume_error obs nv "available" DEFAULT_TIME_LIMIT tt hw
      | ok w => simp [hw, Except.mapError, bind, Except.bind, pure,
          Except.pure] at h

/-- Helper: `destroy_volume` (on a successful delete) returns within `fuel`
polls exactly when one of those polls of `get` reports the volume gone. -/
lemma destroy_volume_some_iff (g : Nat → Bool) (fuel : Nat) :
    destroy_volume true g fuel = some (.ok ()) ↔
      ∃ i < fuel, g i = false := by
  unfold destroy_volume
  simp only [if_true]
  cases hd : destroyGo g 0 fuel with
  | none =>
    simp only [hd, Option.map_none']
    constructor
    · intro h; cases h
    · rintro ⟨i, hi, hgi⟩
      have := (destroyGo_some_iff g fuel 0).mpr ⟨i, Nat.zero_le i, by omega, hgi⟩
      rw [hd] at this
      cases this
  | some u =>
    cases u
    simp only [hd, Option.map_some']
    constructor
    · intro _
      obtain ⟨j, _, hj2, hj3⟩ := (destroyGo_some_iff g fuel 0).mp hd
      exact ⟨j, by omega, hj3⟩
    · intro _; trivial

/-- Helper: `destroy_volume` has no deadline — while the backend keeps
listing the volume it simply keeps polling. -/
lemma destroy_volume_no_deadline (fuel : Nat) :
    destroy_volume true (fun _ => true) fuel = none := by
  unfold destroy_volume
  simp [destroyGo_none_always]

set_option maxRecDepth 8000 in
/-- C2 counterexample: the claim "every mutating operation polls at ≤100 ms
intervals with a 60 s default deadline and on expiry raises an error
carrying the expected and the last-observed state" fails on the code in two
concrete ways.  First, two timed-out `wait_for_volume` runs under different
last-observed enumerations (one forever lists the volume as `creating`, one
never lists it) raise the *identical* error — so the error carries no
last-observed state.  Second, `destroy_volume` is still polling after 700
polls — more than the 601 a 60 s deadline at 100 ms intervals would allow —
and raises nothing, because its confirmation loop has neither sleep nor
deadline. -/
theorem mutating_ops_polling_counterexample :
    wait_for_volume exampleObsStuck exampleWaitVolume "available" 1 =
      .error ⟨exampleWaitVolume, "available", 10, 10⟩ ∧
    wait_for_volume exampleObsEmpty exampleWaitVolume "available" 1 =
      .error ⟨exampleWaitVolume, "available", 10, 10⟩ ∧
    exampleObsStuck 0 ≠ exampleObsEmpty 0 ∧
    destroy_volume true (fun _ => true) 700 = none := by
  refine ⟨rfl, rfl, ?_, rfl⟩
  intro h
  simp [exampleObsStuck, exampleObsEmpty] at h

/-- C2 (amended): `create_volume`, `attach_volume` and `detach_volume` wait
via `wait_for_volume`, which polls the backend enumeration once per 100 ms
until the expected status holds, subject to a per-call time limit
defaulting to 60 s; on expiry it raises an error carrying the expected
volume, the expected status, the elapsed time and the time limit — not the
last-observed state.  `destroy_volume` does not use this discipline: it
polls `get` in an unbounded tight loop with no sleep interval and no
deadline, returning exactly when a poll reports the volume gone. -/
theorem mutating_ops_polling_amended (obs : Nat → List OSVolume)
    (e : OSVolume) (st : String) (L : Nat) (v : OSVolume) (g : Nat → Bool)
    (fuel : Nat) (parseUUID : String → Option Nat) (cluster_id : Nat)
    (cinderList novaVolumes : List OSVolume) (rv nova_volume : OSVolume)
    (blockdevice_id attach_to our_id : String) :
    ((∀ i ≤ 10 * L, findExpected (obs i) e.id st = none) →
      wait_for_volume obs e st L = .error ⟨e, st, 10 * L, 10 * L⟩) ∧
    (wait_for_volume obs e st L = .ok v →
      ∃ i ≤ 10 * L, findExpected (obs i) e.id st = some v) ∧
    (wait_for_volume obs e st = wait_for_volume obs e st DEFAULT_TIME_LIMIT ∧
      DEFAULT_TIME_LIMIT = 60 ∧ WAIT_POLL_INTERVAL_MS = 100) ∧
    (∀ t, create_volume parseUUID obs rv = .error (.timeout t) →
      t = ⟨rv, "available", 10 * DEFAULT_TIME_LIMIT,
        10 * DEFAULT_TIME_LIMIT⟩) ∧
    (∀ t, attach_volume parseUUID cluster_id cinderList nova_volume obs
        blockdevice_id attach_to = .error (.timeout t) →
      t = ⟨nova_volume, "in-use", 10 * DEFAULT_TIME_LIMIT,
        10 * DEFAULT_TIME_LIMIT⟩) ∧
    (∀ t, detach_volume our_id novaVolumes obs blockdevice_id =
        .error (.timeout t) →
      ∃ nv, nova_get novaVolumes blockdevice_id = some nv ∧
        t = ⟨nv, "available", 10 * DEFAULT_TIME_LIMIT,
          10 * DEFAULT_TIME_LIMIT⟩) ∧
    (destroy_volume true g fuel = some (.ok ()) ↔
      ∃ i < fuel, g i = false) ∧
    destroy_volume true (fun _ => true) fuel = none := by
  refine ⟨wait_for_volume_timeout obs e st L,
    wait_for_volume_ok obs e st L v,
    ⟨rfl, rfl, rfl⟩,
    create_volume_timeout parseUUID obs rv,
    ?_, ?_,
    destroy_volume_some_iff g fuel,
    destroy_volume_no_deadline fuel⟩
  · intro t
    exact attach_volume_timeout parseUUID cluster_id cinderList nova_volume
      obs blockdevice_id attach_to t
  · intro t
    exact detach_volume_timeout our_id novaVolumes obs blockdevice_id t

/-- Witness for the amended C2 at concrete inputs: a timed-out wait and a
destroy loop ending at the fourth poll. -/
theorem mutating_ops_polling_amended_witness :
    wait_for_volume exampleObsEmpty exampleWaitVolume "creating" 1 =
      .error ⟨exampleWaitVolume, "creating", 10, 10⟩ ∧
    destroy_volume true exampleGetTrace 5 = some (.ok ()) := by
  constructor
  · exact (mutating_ops_polling_amended exampleObsEmpty exampleWaitVolume
      "creating" 1 exampleWaitVolume exampleGetTrace 5 exampleParseUUID 1
      [] [] exampleWaitVolume exampleWaitVolume "vol-1" "srv-1" "self").1
      (fun i _ => rfl)
  · exact (mutating_ops_polling_amended exampleObsEmpty exampleWaitVolume
      "creating" 1 exampleWaitVolume exampleGetTrace 5 exampleParseUUID 1
      [] [] exampleWaitVolume exampleWaitVolume "vol-1" "srv-1"
      "self").2.2.2.2.2.2.1.mpr ⟨3, by omega, rfl⟩

/-! ## C3 — `attach_volume` -/

/-- C3: `attach_volume(blockdevice_id, attach_to)` (over a successful
listing `vols` of the driver's volumes): when no listed volume has
`blockdevice_id` it fails with `UnknownVolume` (via
`get_blockdevice_volume`, modelled from the spec); when the looked-up
volume's `attached_to` is set it fails with `AlreadyAttachedVolume`; and
any successful result carries `attached_to = attach_to` and is only
returned after some poll of the backend enumeration, within the default
deadline, reported the attached volume's status as `in-use`. -/
theorem attach_volume_spec (parseUUID : String → Option Nat)
    (cluster_id : Nat) (cinderList : List OSVolume) (nova_volume : OSVolume)
    (obs : Nat → List OSVolume) (blockdevice_id attach_to : String)
    (vols : List BlockDeviceVolume)
    (hl : list_volumes parseUUID cluster_id cinderList = .ok vols) :
    ((∀ v ∈ vols, v.blockdevice_id ≠ blockdevice_id) →
      attach_volume parseUUID cluster_id cinderList nova_volume obs
        blockdevice_id attach_to = .error (.driver .unknownVolume)) ∧
    (∀ u, get_blockdevice_volume vols blockdevice_id = .ok u →
      u.attached_to.isSome = true →
      attach_volume parseUUID cluster_id cinderList nova_volume obs
        blockdevice_id attach_to = .error (.driver .alreadyAttachedVolume)) ∧
    (∀ r, attach_volume parseUUID cluster_id cinderList nova_volume obs
        blockdevice_id attach_to = .ok r →
      r.attached_to = some attach_to ∧
      ∃ i ≤ 10 * DEFAULT_TIME_LIMIT,
        (findExpected (obs i) nova_volume.id "in-use").isSome = true) := by
  refine ⟨?_, ?_, ?_⟩
  · intro habsent
    have hfind : vols.find? (fun v => v.blockdevice_id = blockdevice_id :
        BlockDeviceVolume → Bool) = none := by
      rw [List.find?_eq_none]
      intro v hv
      simp only [decide_eq_true_eq]
      exact habsent v hv
    unfold attach_volume
    simp [hl, get_blockdevice_volume, hfind, Except.mapError, bind,
      Except.bind]
  · intro u hget hatt
    unfold attach_volume
    simp [hl, hget, hatt, Except.mapError, bind, Except.bind]
  · intro r h
    unfold attach_volume at h
    simp only [hl, Except.mapError, bind, Except.bind] at h
    cases hget : get_blockdevice_volume vols blockdevice_id with
    | error e => simp [hget, Except.mapError] at h
    | ok u =>
      simp only [hget, Except.mapError] at h
      cases hatt : u.attached_to.isSome with
      | true => simp [hatt] at h
      | false =>
        simp only [hatt, Bool.false_eq_true, if_false] at h
        cases hw : wait_for_volume obs nova_volume "in-use"
            DEFAULT_TIME_LIMIT with
        | error tt => simp [hw, Except.mapError, bind, Except.bind] at h
        | ok w =>
          simp only [hw, Except.mapError, bind, Except.bind, pure,
            Except.pure, Except.ok.injEq] at h
          constructor
          · rw [← h]
          · obtain ⟨i, hi, hf⟩ :=
              wait_for_volume_ok obs nova_volume "in-use" DEFAULT_TIME_LIMIT
                w hw
            exact ⟨i, hi, by rw [hf]; rfl⟩

/-- Witness for C3: attaching the example volume on a backend that reports
`in-use` at the first poll. -/
theorem attach_volume_spec_witness :
    ({ exampleBDV with attached_to := some "srv-1" } :
      BlockDeviceVolume).attached_to = some "srv-1" ∧
    ∃ i ≤ 10 * DEFAULT_TIME_LIMIT,
      (findExpected (exampleObsInUse i) exampleWaitVolume.id
        "in-use").isSome = true :=
  (attach_volume_spec exampleParseUUID 1 [exampleCinderVolume]
    exampleWaitVolume exampleObsInUse "vol-1" "srv-1" [exampleBDV] rfl).2.2
    { exampleBDV with attached_to := some "srv-1" } rfl

/-! ## C4 — `detach_volume` -/

/-- C4 counterexample: a volume that exists and is attached — but to a
different instance than the one the driver runs on — falls in the claim's
"otherwise it detaches" branch, yet the code fails with
`UnattachedVolume`: Nova's `delete_server_volume` is called with this
host's instance id and reports `NotFound` for an attachment belonging to
another instance. -/
theorem detach_volume_counterexample :
    nova_get [exampleNovaAttachedElsewhere] "vol-1" =
      some exampleNovaAttachedElsewhere ∧
    exampleNovaAttachedElsewhere.attachments ≠ [] ∧
    detach_volume "this-server" [exampleNovaAttachedElsewhere]
      exampleObsAvailable "vol-1" = .error (.driver .unattachedVolume) := by
  refine ⟨rfl, ?_, rfl⟩
  intro h
  simp [exampleNovaAttachedElsewhere] at h

/-- C4 (amended): `detach_volume(blockdevice_id)` fails with
`UnknownVolume` when Nova lists no volume with that id; fails with
`UnattachedVolume` when the volume is not currently attached to the
instance the driver runs on — both when it is unattached and when it is
attached to a different instance; and when it is attached to this
instance, a successful return happens only after some poll of the Nova
enumeration, within the default deadline, reported the volume's status as
`available`. -/
theorem detach_volume_spec (our_id : String) (novaVolumes : List OSVolume)
    (obs : Nat → List OSVolume) (blockdevice_id : String) :
    (nova_get novaVolumes blockdevice_id = none →
      detach_volume our_id novaVolumes obs blockdevice_id =
        .error (.driver .unknownVolume)) ∧
    (∀ nv, nova_get novaVolumes blockdevice_id = some nv →
      (¬ ∃ a ∈ nv.attachments, a.server_id = our_id) →
      detach_volume our_id novaVolumes obs blockdevice_id =
        .error (.driver .unattachedVolume)) ∧
    (detach_volume our_id novaVolumes obs blockdevice_id = .ok () →
      ∃ nv, nova_get novaVolumes blockdevice_id = some nv ∧
        (∃ a ∈ nv.attachments, a.server_id = our_id) ∧
        ∃ i ≤ 10 * DEFAULT_TIME_LIMIT,
          (findExpected (obs i) nv.id "available").isSome = true) := by
  refine ⟨?_, ?_, ?_⟩
  · intro hnone
    unfold detach_volume
    simp [hnone]
  · intro nv hnv hnot
    have hany : nv.attachments.any (fun a => a.server_id = our_id :
        VolAttachment → Bool) = false := by
      rw [Bool.eq_false_iff]
      intro hany
      apply hnot
      obtain ⟨a, ha, hpa⟩ := List.any_eq_true.mp hany
      exact ⟨a, ha, of_decide_eq_true hpa⟩
    unfold detach_volume delete_server_volume
    simp [hnv, hany]
  · intro h
    unfold detach_volume at h
    cases hnv : nova_get novaVolumes blockdevice_id with
    | none => simp [hnv] at h
    | some nv =>
      simp only [hnv] at h
      cases hd : delete_server_volume novaVolumes our_id blockdevice_id with
      | none => simp [hd] at h
      | some u =>
        simp only [hd] at h
        cases hw : wait_for_volume obs nv "available" DEFAULT_TIME_LIMIT with
        | error tt => simp [hw, Except.mapError, bind, Except.bind] at h
        | ok w =>
          refine ⟨nv, rfl, ?_, ?_⟩
          · unfold delete_server_volume at hd
            simp only [hnv] at hd
            by_cases hany : nv.attachments.any
                (fun a => a.server_id = our_id : VolAttachment → Bool) = true
            · obtain ⟨a, ha, hpa⟩ := List.any_eq_true.mp hany
              exact ⟨a, ha, of_decide_eq_true hpa⟩
            · rw [Bool.not_eq_true] at hany
              simp [hany] at hd
          · obtain ⟨i, hi, hf⟩ :=
              wait_for_volume_ok obs nv "available" DEFAULT_TIME_LIMIT w hw
            exact ⟨i, hi, by rw [hf]; rfl⟩

/-- Witness for the amended C4: detaching the example volume attached to
this instance, on a backend that reports `available` at the first poll. -/
theorem detach_volume_spec_witness :
    ∃ nv, nova_get [exampleNovaAttachedHere] "vol-1" = some nv ∧
      (∃ a ∈ nv.attachments, a.server_id = "this-server") ∧
      ∃ i ≤ 10 * DEFAULT_TIME_LIMIT,
        (findExpected (exampleObsAvailable i) nv.id "available").isSome =
          true :=
  (detach_volume_spec "this-server" [exampleNovaAttachedHere]
    exampleObsAvailable "vol-1").2.2 rfl

/-! ## C5 — broadcast policy of the Control Service -/

/-- C5: on each of (a) a configuration-change callback, (b) receipt of a
`NodeState` update, and (c) a new agent connecting, the service snapshots
the (configuration, state) pair once and attempts the same `ClusterStatus`
payload to every connected agent — for (c), only to the new one — with the
payload reflecting the post-event configuration/state; and the service
data and the list of attempted sends are identical under any two
assignments of send failures (a failed send is dropped by the errback and
affects nothing). -/
theorem control_broadcast_spec {Conn Config St Change : Type}
    (apply_changes : St → List Change → St) (fails fails2 : Conn → Bool)
    (s : ControlAMPService Conn Config St) (newConfig : Config)
    (changes : List Change) (c : Conn) :
    ((config_changed fails s newConfig).2.map Prod.fst =
      s.connections.map (fun conn => ⟨conn, newConfig, s.cluster_state⟩) ∧
     (config_changed fails s newConfig).1 =
      { s with configuration := newConfig }) ∧
    ((node_changed apply_changes fails s changes).2.map Prod.fst =
      s.connections.map (fun conn =>
        ⟨conn, s.configuration, apply_changes s.cluster_state changes⟩) ∧
     (node_changed apply_changes fails s changes).1 =
      { s with cluster_state := apply_changes s.cluster_state changes }) ∧
    ((control_connected fails s c).2.map Prod.fst =
      [⟨c, s.configuration, s.cluster_state⟩] ∧
     (control_connected fails s c).1 =
      { s with connections := s.connections ++ [c] }) ∧
    ((config_changed fails s newConfig).1 =
        (config_changed fails2 s newConfig).1 ∧
     (config_changed fails s newConfig).2.map Prod.fst =
        (config_changed fails2 s newConfig).2.map Prod.fst) ∧
    ((node_changed apply_changes fails s changes).1 =
        (node_changed apply_changes fails2 s changes).1 ∧
     (node_changed apply_changes fails s changes).2.map Prod.fst =
        (node_changed apply_changes fails2 s changes).2.map Prod.fst) ∧
    ((control_connected fails s c).1 = (control_connected fails2 s c).1 ∧
     (control_connected fails s c).2.map Prod.fst =
        (control_connected fails2 s c).2.map Prod.fst) := by
  refine ⟨⟨?_, rfl⟩, ⟨?_, rfl⟩, ⟨?_, rfl⟩, ⟨rfl, ?_⟩, ⟨rfl, ?_⟩, ⟨rfl, ?_⟩⟩ <;>
    simp [config_changed, node_changed, control_connected,
      send_state_to_connections, List.map_map, Function.comp]

/-! ## C6 / C9 — ZFS snapshot listing -/

/-- Helper: when every line carries an `@`, `parseSnapshots` succeeds and
returns exactly the decodable names of this pool's lines, in line order. -/
lemma parseSnapshots_characterization {α : Type}
    (fromBytes : List Char → Option α) (pool : List Char)
    (lines : List (List Char))
    (h : ∀ line ∈ lines, (splitFirst '@' line).isSome = true) :
    parseSnapshots fromBytes pool lines =
      .ok (lines.filterMap (fun line =>
        match splitFirst '@' line with
        | some (linePool, encodedName) =>
          if linePool = pool then fromBytes encodedName else none
        | none => none)) := by
  induction lines with
  | nil => rfl
  | cons line rest ih =>
    have hline := h line (List.mem_cons_self _ _)
    have hrest := ih (fun l hl => h l (List.mem_cons_of_mem _ hl))
    cases hsp : splitFirst '@' line with
    | none => rw [hsp] at hline; cases hline
    | some pe =>
      obtain ⟨linePool, encodedName⟩ := pe
      by_cases hp : linePool = pool
      · cases hd : fromBytes encodedName with
        | none =>
          simp only [parseSnapshots, hsp, hp, if_true, hd, List.filterMap_cons]
          simpa [hsp, hp, hd] using hrest
        | some name =>
          simp only [parseSnapshots, hsp, hp, if_true, hd, List.filterMap_cons]
          simp only [hrest, Except.map, hsp, hp, if_true, hd]
      · simp only [parseSnapshots, hsp, hp, if_false, List.filterMap_cons]
        simpa [hsp, hp] using hrest

/-- C6: on every zfs enumeration output whose lines are snapshot names
(each carrying an `@`), `ZFSSnapshots.list` returns exactly those names
that decode under the caller's naming scheme: for each line of this pool
the decoder either yields a name, which is included, or fails, and the
name is silently excluded — the operation itself does not fail. -/
theorem zfs_list_returns_exactly_decodable_names {α : Type}
    (fromBytes : List Char → Option α) (pool : List Char) (data : List Char)
    (h : ∀ line ∈ splitlines data, (splitFirst '@' line).isSome = true) :
    zfs_snapshots_list fromBytes pool data =
      .ok ((splitlines data).filterMap (fun line =>
        match splitFirst '@' line with
        | some (linePool, encodedName) =>
          if linePool = pool then fromBytes encodedName else none
        | none => none)) :=
  parseSnapshots_characterization fromBytes pool (splitlines data) h

/-- Witness for C6: a concrete enumeration with a decodable name, an
undecodable name in this pool, and a decodable name in a foreign pool. -/
theorem zfs_list_returns_exactly_decodable_names_witness :
    zfs_snapshots_list exampleDecoder ("hpool".data) exampleZfsOutput =
      .ok ((splitlines exampleZfsOutput).filterMap (fun line =>
        match splitFirst '@' line with
        | some (linePool, encodedName) =>
          if linePool = "hpool".data then exampleDecoder encodedName else none
        | none => none)) :=
  zfs_list_returns_exactly_decodable_names exampleDecoder ("hpool".data)
    exampleZfsOutput (by decide)

/-- Helper: every name in a successful `parseSnapshots` result arises from
a line whose pool component equals the configured pool. -/
lemma parseSnapshots_mem_source {α : Type}
    (fromBytes : List Char → Option α) (pool : List Char) :
    ∀ (lines : List (List Char)) (L : List α),
      parseSnapshots fromBytes pool lines = .ok L →
      ∀ n ∈ L, ∃ line ∈ lines, ∃ encodedName,
        splitFirst '@' line = some (pool, encodedName) ∧
        fromBytes encodedName = some n := by
  intro lines
  induction lines with
  | nil =>
    intro L h n hn
    simp only [parseSnapshots, Except.ok.injEq] at h
    subst h
    simp at hn
  | cons line rest ih =>
    intro L h n hn
    cases hsp : splitFirst '@' line with
    | none => simp [parseSnapshots, hsp] at h
    | some pe =>
      obtain ⟨linePool, encodedName⟩ := pe
      by_cases hp : linePool = pool
      · subst hp
        cases hd : fromBytes encodedName with
        | none =>
          simp only [parseSnapshots, hsp, if_true, hd] at h
          obtain ⟨l, hl, e, he1, he2⟩ := ih L h n hn
          exact ⟨l, List.mem_cons_of_mem _ hl, e, he1, he2⟩
        | some name =>
          simp only [parseSnapshots, hsp, if_true, hd] at h
          cases hrest : parseSnapshots fromBytes linePool rest with
          | error e => simp [hrest, Except.map] at h
          | ok others =>
            simp only [hrest, Except.map, Except.ok.injEq] at h
            subst h
            rcases List.mem_cons.mp hn with hn | hn
            · exact ⟨line, List.mem_cons_self _ _, encodedName, hsp,
                by rw [hd, hn]⟩
            · obtain ⟨l, hl, e, he1, he2⟩ := ih others hrest n hn
              exact ⟨l, List.mem_cons_of_mem _ hl, e, he1, he2⟩
      · simp only [parseSnapshots, hsp, hp, if_false] at h
        obtain ⟨l, hl, e, he1, he2⟩ := ih L h n hn
        exact ⟨l, List.mem_cons_of_mem _ hl, e, he1, he2⟩

/-- C9: every name in the result of `ZFSSnapshots.list` arises from an
enumeration line whose pool component (the part before the first `@`)
equals the configured filesystem's pool — a line of a different pool is
excluded even when its name would decode. -/
theorem zfs_list_excludes_foreign_pools {α : Type}
    (fromBytes : List Char → Option α) (pool : List Char) (data : List Char)
    (L : List α) (hok : zfs_snapshots_list fromBytes pool data = .ok L) :
    ∀ n ∈ L, ∃ line ∈ splitlines data, ∃ encodedName,
      splitFirst '@' line = some (pool, encodedName) ∧
      fromBytes encodedName = some n :=
  parseSnapshots_mem_source fromBytes pool (splitlines data) L hok

/-- Witness for C9: on the concrete enumeration — whose foreign-pool line
`otherpool@alien` carries a perfectly decodable name — every returned name
originates from an `hpool` line. -/
theorem zfs_list_excludes_foreign_pools_witness :
    ∃ line ∈ splitlines exampleZfsOutput, ∃ encodedName,
      splitFirst '@' line = some (("hpool".data), encodedName) ∧
        exampleDecoder encodedName = some ("good".data) :=
  zfs_list_excludes_foreign_pools exampleDecoder ("hpool".data)
    exampleZfsOutput [("good".data)] rfl ("good".data)
    (List.mem_singleton.mpr rfl)

/-! ## C7 — REST status codes for dataset creation and deletion -/

/-- C7: the dataset-creation request (POST `/configuration/datasets`) is
treated as successful exactly on HTTP status 201 (`CREATED`), and the
dataset-deletion request (DELETE `/configuration/datasets/{id}`) exactly on
HTTP status 200 (`OK`); any other code raises `ResponseError` carrying the
code and body. -/
theorem dataset_api_status_codes {β : Type} (code : Nat) (body : β) :
    (create_dataset_check code body = .ok body ↔ code = 201) ∧
    (delete_dataset_check code body = .ok body ↔ code = 200) ∧
    (code ≠ 201 → create_dataset_check code body = .error (code, body)) ∧
    (code ≠ 200 → delete_dataset_check code body = .error (code, body)) := by
  refine ⟨?_, ?_, ?_, ?_⟩ <;>
  · first
    | (constructor
       · intro h
         by_contra hne
         simp [create_dataset_check, delete_dataset_check,
           check_and_decode_json, CREATED, OK, hne] at h
       · intro h
         simp [create_dataset_check, delete_dataset_check,
           check_and_decode_json, CREATED, OK, h])
    | (intro hne
       simp [create_dataset_check, delete_dataset_check,
         check_and_decode_json, CREATED, OK, hne])

/-- Witness for C7 at the concrete success codes. -/
theorem dataset_api_status_codes_witness :
    create_dataset_check 201 "body" = .ok "body" ∧
    delete_dataset_check 200 "body" = .ok "body" :=
  ⟨(dataset_api_status_codes 201 "body").1.mpr rfl,
   (dataset_api_status_codes 200 "body").2.1.mpr rfl⟩

/-! ## C8 — exit-code mapping of the zfs command wrapper -/

/-- C8: the result of `zfsCommand` is determined by the child's
termination: exit code 0 (a clean `ConnectionDone`) yields the accumulated
output bytes, exit code 1 yields `CommandFailed`, exit code 2 yields
`BadArguments`, and any other termination — another exit code, a signal
(no exit code), or a non-process failure — propagates the underlying
reason unchanged. -/
theorem zfs_command_exit_codes (chunks : List (List Char)) (n r : Nat) :
    zfsCommandResult chunks (reasonOfExit n) =
      (if n = 0 then .ok (accumulate chunks)
       else if n = 1 then .commandFailed
       else if n = 2 then .badArguments
       else .failure (.processTerminated (some (n : Int)))) ∧
    zfsCommandResult chunks (.processTerminated none) =
      .failure (.processTerminated none) ∧
    zfsCommandResult chunks (.otherFailure r) = .failure (.otherFailure r) := by
  refine ⟨?_, rfl, rfl⟩
  by_cases h0 : n = 0
  · simp [zfsCommandResult, reasonOfExit, connectionLost, h0]
  · by_cases h1 : n = 1
    · simp [zfsCommandResult, reasonOfExit, connectionLost, h0, h1]
    · by_cases h2 : n = 2
      · simp [zfsCommandResult, reasonOfExit, connectionLost, h0, h1, h2]
      · have hi1 : ¬ ((n : Int) = 1) := by
          intro h; apply h1; exact_mod_cast h
        have hi2 : ¬ ((n : Int) = 2) := by
          intro h; apply h2; exact_mod_cast h
        simp [zfsCommandResult, reasonOfExit, connectionLost, h0, h1, h2,
          hi1, hi2]

/-! ## C10 — the `isinstance` guard of `SerializableArgument` -/

/-- C10: every object delivered by `SerializableArgument.fromString` — and
every object accepted by `SerializableArgument.toString` — is an instance
of one of the argument's expected classes; decoding a payload of any other
class raises `TypeError` instead of delivering the foreign object.  In
particular a `ClusterStatus` `configuration` payload is delivered only if
it is a `Deployment`. -/
theorem serializable_argument_type_guard (expected : List WireClass)
    (wire_decode : String → WireObject) (wire_encode : WireObject → String)
    (b : String) (obj : WireObject) :
    (∀ o, SerializableArgument_fromString expected wire_decode b = .ok o →
      o.cls ∈ expected ∧ o = wire_decode b) ∧
    ((wire_decode b).cls ∉ expected →
      SerializableArgument_fromString expected wire_decode b =
        .error .typeError) ∧
    (∀ s, SerializableArgument_toString expected wire_encode obj = .ok s →
      obj.cls ∈ expected) ∧
    (obj.cls ∉ expected →
      SerializableArgument_toString expected wire_encode obj =
        .error .typeError) ∧
    (∀ o, SerializableArgument_fromString clusterStatus_configuration_classes
        wire_decode b = .ok o → o.cls = .deployment) := by
  refine ⟨?_, ?_, ?_, ?_, ?_⟩
  · intro o h
    unfold SerializableArgument_fromString at h
    by_cases hm : (wire_decode b).cls ∈ expected
    · simp only [hm, if_true, Except.ok.injEq] at h
      subst h
      exact ⟨hm, rfl⟩
    · simp [hm] at h
  · intro hm
    unfold SerializableArgument_fromString
    simp [hm]
  · intro s h
    unfold SerializableArgument_toString at h
    by_cases hm : obj.cls ∈ expected
    · exact hm
    · simp [hm] at h
  · intro hm
    unfold SerializableArgument_toString
    simp [hm]
  · intro o h
    unfold SerializableArgument_fromString at h
    by_cases hm : (wire_decode b).cls ∈ clusterStatus_configuration_classes
    · simp only [hm, if_true, Except.ok.injEq] at h
      subst h
      simpa [clusterStatus_configuration_classes] using hm
    · simp [hm] at h

/-- Witness for C10: a payload decoding to a `NodeState` handed to the
`configuration` argument of `ClusterStatusCommand` (which expects a
`Deployment`) raises `TypeError`. -/
theorem serializable_argument_type_guard_witness :
    SerializableArgument_fromString clusterStatus_configuration_classes
      exampleWireDecode "payload" = .error .typeError :=
  (serializable_argument_type_guard clusterStatus_configuration_classes
    exampleWireDecode exampleWireEncode "payload"
    { cls := .nodeState, payload := 7 }).2.1 (by decide)
